import Mathlib

/-!
# D3D9 front end of dxvk: adapter description and device construction

A shallow embedding of `src/d3d9/d3d9_adapter.cpp` and `src/d3d9/d3d9_device.cpp`.

Conventions of the embedding.

* `UINT`, `DWORD` and handles are natural numbers; a value stored into a 32-bit
  unsigned variable from a wider computation is reduced modulo `2 ^ 32`.
  `LONG`, `BOOL` and `HRESULT` are integers. The null pointer / null handle is `0`.
* COM interfaces implemented outside these two files (`IDXGIAdapter1`,
  `IDXGIOutput`, the window system, the D3D11 runtime) are records of the answers
  they give; every theorem quantifies over them.
* A C++ exception is the `Except.error` branch; undefined behaviour of the C++
  abstract machine (out-of-range `operator[]`, integer division by zero, `strcpy`
  past the end of the destination array) is the `none` branch of an `Option`.
* `Logger` calls do not touch any state that is modelled and are left out.
-/

namespace dxvk

/-! ## Machine types -/

/-- Number of values of a 32-bit unsigned integer. -/
def UINT_RANGE : Nat := 2 ^ 32

abbrev UINT := Nat
abbrev HRESULT := Int

/-- The `FAILED` test of the platform headers: the sign bit of the result is set. -/
def FAILED (hr : HRESULT) : Bool := decide (hr < 0)

def D3D_OK : HRESULT := 0

/-- `D3DERR_INVALIDCALL` is `0x8876086C` read as a signed 32-bit integer. -/
def D3DERR_INVALIDCALL : HRESULT := -2005530516

/-- Conversion of a `LONG` expression to `UINT`. -/
def toUINT (x : Int) : UINT := (x % (UINT_RANGE : Int)).toNat

structure DxvkError where
  message : String
deriving DecidableEq, Repr

/-! ## DXGI records -/

structure DXGI_RATIONAL where
  Numerator : UINT
  Denominator : UINT
deriving DecidableEq, Repr

structure DXGI_MODE_DESC where
  Width : UINT
  Height : UINT
  RefreshRate : DXGI_RATIONAL
  Format : Nat
  ScanlineOrdering : Nat
  Scaling : Nat
deriving DecidableEq, Repr

/-- A value-initialised `DXGI_MODE_DESC`, as `std::vector<DXGI_MODE_DESC>(count)` creates. -/
def DXGI_MODE_DESC.zero : DXGI_MODE_DESC :=
  { Width := 0, Height := 0, RefreshRate := { Numerator := 0, Denominator := 0 },
    Format := 0, ScanlineOrdering := 0, Scaling := 0 }

def DXGI_FORMAT_B8G8R8A8_UNORM : Nat := 87

structure LUID where
  LowPart : Nat
  HighPart : Int
deriving DecidableEq, Repr

/-- The fields of `DXGI_ADAPTER_DESC1` that `GetIdentifier` reads. `Description` holds the
UTF-16 code units of the `WCHAR[128]` array in front of its terminator. -/
structure DXGI_ADAPTER_DESC1 where
  Description : List Nat
  VendorId : UINT
  DeviceId : UINT
  SubSysId : UINT
  Revision : UINT
  AdapterLuid : LUID
deriving DecidableEq, Repr

/-- Capacity, in code units, of `DXGI_ADAPTER_DESC1::Description` (`WCHAR[128]`). -/
def DXGI_DESCRIPTION_CAPACITY : Nat := 128

/-- An output of an adapter, as far as the adapter wrapper uses it.
`GetDesc` is the result and the `Monitor` field left in the descriptor.
`GetDisplayModeList format flags count buffer` receives the value of `*pNumModes` and the
buffer (`none` for `nullptr`) and answers with the result, the value left in `*pNumModes`
and the entries it wrote to the front of the buffer. -/
structure IDXGIOutput where
  GetDesc : HRESULT × Nat
  GetDisplayModeList : Nat → Nat → UINT → Option (List DXGI_MODE_DESC) →
    HRESULT × UINT × List DXGI_MODE_DESC

/-- An adapter of the compositor. `EnumOutputs i` is the result and the output stored
through the out-pointer (meaningful when the call succeeded); `GetDesc1` is the result and
the descriptor written. `handle` is the identity of the COM object. -/
structure IDXGIAdapter1 where
  handle : Nat
  EnumOutputs : UINT → HRESULT × IDXGIOutput
  GetDesc1 : HRESULT × DXGI_ADAPTER_DESC1

/-! ## `d3d9_adapter.cpp` -/

/-- Use the first output of an adapter. -/
def getFirstOutput (adapter : IDXGIAdapter1) : Except DxvkError IDXGIOutput :=
  let r := adapter.EnumOutputs 0
  if FAILED r.1 then
    .error ⟨"No monitors attached to adapter"⟩
  else
    .ok r.2

/-- Retrieve the HMONITOR of an output. -/
def getOutputMonitor (output : IDXGIOutput) : Except DxvkError Nat :=
  let r := output.GetDesc
  if FAILED r.1 then
    .error ⟨"Failed to retrieve output HMONITOR"⟩
  else
    .ok r.2

/-- The buffer after a callee has written `written` to its front; a callee cannot write
more entries than the buffer holds. -/
def writeBuffer (buffer written : List DXGI_MODE_DESC) : List DXGI_MODE_DESC :=
  written.take buffer.length ++ buffer.drop written.length

/-- Cache the supported display modes for later. The result of the first query is not
looked at; the vector keeps the size the first query reported. -/
def getOutputModes (output : IDXGIOutput) : Except DxvkError (List DXGI_MODE_DESC) :=
  let count : UINT := 0
  let r1 := output.GetDisplayModeList DXGI_FORMAT_B8G8R8A8_UNORM 0 count none
  let count : UINT := r1.2.1 % UINT_RANGE
  let modes := List.replicate count DXGI_MODE_DESC.zero
  let r2 := output.GetDisplayModeList DXGI_FORMAT_B8G8R8A8_UNORM 0 count (some modes)
  if FAILED r2.1 then
    .error ⟨"Failed to get display mode list"⟩
  else
    .ok (writeBuffer modes r2.2.2)

structure D3D9Adapter where
  m_adapter : IDXGIAdapter1
  m_output : IDXGIOutput
  m_monitor : Nat
  m_modes : List DXGI_MODE_DESC

/-- The constructor `D3D9Adapter::D3D9Adapter`. -/
def D3D9Adapter.new (adapter : IDXGIAdapter1) : Except DxvkError D3D9Adapter :=
  match getFirstOutput adapter with
  | .error e => .error e
  | .ok output =>
    match getOutputMonitor output with
    | .error e => .error e
    | .ok monitor =>
      match getOutputModes output with
      | .error e => .error e
      | .ok modes =>
        .ok { m_adapter := adapter, m_output := output, m_monitor := monitor, m_modes := modes }

structure D3DDISPLAYMODE where
  Width : UINT
  Height : UINT
  RefreshRate : UINT
  Format : Nat
deriving DecidableEq, Repr

/-- The method `D3D9Adapter::GetModeCount`: `m_modes.size()` converted to `UINT`. -/
def D3D9Adapter.GetModeCount (a : D3D9Adapter) : UINT :=
  a.m_modes.length % UINT_RANGE

/-- The method `D3D9Adapter::GetMode`. `mode` is the caller's record; the result is that
record after the call, or `none` when the index is out of range or the denominator is 0. -/
def D3D9Adapter.GetMode (a : D3D9Adapter) (index : UINT) (mode : D3DDISPLAYMODE) :
    Option D3DDISPLAYMODE :=
  match a.m_modes[index]? with
  | none => none
  | some desc =>
    if desc.RefreshRate.Denominator = 0 then
      none
    else
      let refresh := desc.RefreshRate.Numerator / desc.RefreshRate.Denominator
      some { mode with Width := desc.Width, Height := desc.Height, RefreshRate := refresh }

/-! ### The identifier record -/

/-- Capacity of `Driver` and `Description` in `D3DADAPTER_IDENTIFIER9` (d3d9types.h). -/
def MAX_DEVICE_IDENTIFIER_STRING : Nat := 512

/-- Capacity of `DeviceName` in `D3DADAPTER_IDENTIFIER9` (`char DeviceName[32]`). -/
def DEVICE_NAME_CAPACITY : Nat := 32

/-- Size in bytes of a `GUID`. -/
def GUID_SIZE : Nat := 16

/-- Size in bytes of a `LUID` (`DWORD LowPart; LONG HighPart`). -/
def LUID_SIZE : Nat := 8

/-- The record `D3DADAPTER_IDENTIFIER9`. The three strings are the bytes of their `char`
arrays, `DeviceIdentifier` the 16 bytes of the `GUID`. -/
structure D3DADAPTER_IDENTIFIER9 where
  Driver : List Nat
  Description : List Nat
  DeviceName : List Nat
  DriverVersion : Int
  VendorId : UINT
  DeviceId : UINT
  SubSysId : UINT
  Revision : UINT
  DeviceIdentifier : List Nat
  WHQLLevel : UINT
deriving DecidableEq, Repr

/-- The value `ident = {}` assigns: every byte of the record is 0. -/
def D3DADAPTER_IDENTIFIER9.zero : D3DADAPTER_IDENTIFIER9 :=
  { Driver := List.replicate MAX_DEVICE_IDENTIFIER_STRING 0,
    Description := List.replicate MAX_DEVICE_IDENTIFIER_STRING 0,
    DeviceName := List.replicate DEVICE_NAME_CAPACITY 0,
    DriverVersion := 0, VendorId := 0, DeviceId := 0, SubSysId := 0, Revision := 0,
    DeviceIdentifier := List.replicate GUID_SIZE 0,
    WHQLLevel := 0 }

/-- The C string a byte sequence denotes: the bytes in front of the first 0. -/
def cstr (bytes : List Nat) : List Nat := bytes.takeWhile (fun b => b != 0)

/-- The bytes of a string literal of the source. -/
def literal (s : String) : List Nat := s.toList.map Char.toNat

/-- The call `std::strcpy(dst, src)` on a destination array with contents `dst`: the
characters of `src` and the terminator are written to the front of the array. When they
do not fit the call writes past the end of the array, which is undefined: `none`. -/
def strcpy (dst src : List Nat) : Option (List Nat) :=
  let s := cstr src
  if s.length + 1 ≤ dst.length then
    some (s ++ 0 :: dst.drop (s.length + 1))
  else
    none

/-- The call `std::memcpy(dst, src, n)` on arrays that both hold at least `n` bytes. -/
def memcpy (dst src : List Nat) (n : Nat) : List Nat := src.take n ++ dst.drop n

/-- The `k` low bytes of `n`, least significant first. -/
def leBytes (k n : Nat) : List Nat := (List.range k).map (fun i => n / 256 ^ i % 256)

/-- Object representation of a `LUID` on the little-endian targets of the library. -/
def LUID.bytes (l : LUID) : List Nat := leBytes 4 l.LowPart ++ leBytes 4 (toUINT l.HighPart)

/-- The suffix appended to the device name. -/
def DESCRIPTION_SUFFIX : List Nat := literal " (D3D9 DXVK Driver)"

/-- The method `D3D9Adapter::GetIdentifier`. `fromws` is `str::fromws` of the string
utilities, which narrows the UTF-16 description to a byte string; `str::format` of two
strings is their concatenation. `ident` is the caller's record; the result is the value
returned and the record after the call, or `none` when a `strcpy` is undefined. -/
def D3D9Adapter.GetIdentifier (fromws : List Nat → List Nat) (a : D3D9Adapter)
    (ident : D3DADAPTER_IDENTIFIER9) : Option (HRESULT × D3DADAPTER_IDENTIFIER9) :=
  let r := a.m_adapter.GetDesc1
  if FAILED r.1 then
    some (D3DERR_INVALIDCALL, ident)
  else
    let desc := r.2
    let ident := D3DADAPTER_IDENTIFIER9.zero
    let name := fromws desc.Description
    let description := name ++ DESCRIPTION_SUFFIX
    let driver := literal "DXVK"
    match strcpy ident.DeviceName name with
    | none => none
    | some deviceName =>
      let ident := { ident with DeviceName := deviceName }
      match strcpy ident.Description description with
      | none => none
      | some descriptionField =>
        let ident := { ident with Description := descriptionField }
        match strcpy ident.Driver driver with
        | none => none
        | some driverField =>
          let ident := { ident with Driver := driverField }
          let ident := { ident with DriverVersion := 1 }
          let ident := { ident with VendorId := desc.VendorId }
          let ident := { ident with DeviceId := desc.DeviceId }
          let ident := { ident with SubSysId := desc.SubSysId }
          let ident := { ident with Revision := desc.Revision }
          let ident := { ident with
            DeviceIdentifier := memcpy ident.DeviceIdentifier desc.AdapterLuid.bytes LUID_SIZE }
          let ident := { ident with WHQLLevel := 1 }
          some (D3D_OK, ident)

/-! ## `d3d9_device.cpp` -/

structure RECT where
  left : Int
  top : Int
  right : Int
  bottom : Int
deriving DecidableEq, Repr

structure D3DDEVICE_CREATION_PARAMETERS where
  AdapterOrdinal : UINT
  DeviceType : Nat
  hFocusWindow : Nat
  BehaviorFlags : Nat
deriving DecidableEq, Repr

structure D3DPRESENT_PARAMETERS where
  BackBufferWidth : UINT
  BackBufferHeight : UINT
  BackBufferFormat : Nat
  BackBufferCount : UINT
  MultiSampleType : Nat
  MultiSampleQuality : Nat
  SwapEffect : Nat
  hDeviceWindow : Nat
  Windowed : Int
  EnableAutoDepthStencil : Int
  AutoDepthStencilFormat : Nat
  Flags : Nat
  FullScreen_RefreshRateInHz : UINT
  PresentationInterval : UINT
deriving DecidableEq, Repr

structure DXGI_SAMPLE_DESC where
  Count : UINT
  Quality : UINT
deriving DecidableEq, Repr

structure DXGI_SWAP_CHAIN_DESC where
  BufferDesc : DXGI_MODE_DESC
  SampleDesc : DXGI_SAMPLE_DESC
  BufferUsage : Nat
  BufferCount : UINT
  OutputWindow : Nat
  Windowed : Int
  SwapEffect : Nat
  Flags : Nat
deriving DecidableEq, Repr

def DXGI_MODE_SCANLINE_ORDER_UNSPECIFIED : Nat := 0
def DXGI_MODE_SCALING_UNSPECIFIED : Nat := 0
def DXGI_USAGE_RENDER_TARGET_OUTPUT : Nat := 32
def DXGI_USAGE_BACK_BUFFER : Nat := 64
def DXGI_SWAP_EFFECT_DISCARD : Nat := 0
def D3DSWAPEFFECT_DISCARD : Nat := 1
def D3D_DRIVER_TYPE_UNKNOWN : Nat := 0
def D3D11_SDK_VERSION : Nat := 7
def D3DUSAGE_RENDERTARGET : Nat := 1
def D3DUSAGE_DEPTHSTENCIL : Nat := 2

/-- The arguments of `D3D11CreateDeviceAndSwapChain` that are passed by value. -/
structure CreateDeviceArgs where
  pAdapter : Nat
  DriverType : Nat
  Software : Nat
  Flags : Nat
  pFeatureLevels : Nat
  FeatureLevels : UINT
  SDKVersion : UINT
  pSwapChainDesc : DXGI_SWAP_CHAIN_DESC
deriving DecidableEq, Repr

/-- The objects `D3D11CreateDeviceAndSwapChain` stores through its out-pointers. -/
structure CreatedObjects where
  swapChain : Nat
  device : Nat
  ctx : Nat
deriving DecidableEq, Repr

/-- What lies outside `d3d9_device.cpp`: the window system, the D3D11 runtime and the
format table of `d3d9_format.h`.
`GetClientRect hWnd r` is the rectangle left in `r` by the call.
`GetBuffer swapChain index` and `CreateRenderTargetView device resource` are the result
and the pointer left in the `Com` the caller passes, which was null before the call.
`SurfaceView texture usage` is the view the surface constructor creates for itself. -/
structure Host where
  GetClientRect : Nat → RECT → RECT
  SurfaceFormatToDXGIFormat : Nat → Nat
  D3D11CreateDeviceAndSwapChain : CreateDeviceArgs → HRESULT × CreatedObjects
  GetBuffer : Nat → UINT → HRESULT × Nat
  CreateRenderTargetView : Nat → Nat → HRESULT × Nat
  SurfaceView : Nat → Nat → Nat

/-- A call the device issues to the outside. -/
inductive HostCall where
  | GetClientRect (hWnd : Nat)
  | D3D11CreateDeviceAndSwapChain (args : CreateDeviceArgs)
  | GetBuffer (swapChain : Nat) (index : UINT)
  | CreateRenderTargetView (device : Nat) (resource : Nat)
  | OMSetRenderTargets (ctx : Nat) (NumViews : UINT) (renderTargetViews : List Nat)
      (depthStencilView : Nat)
deriving DecidableEq, Repr

/-- Modelled from the spec: the class `D3D9Surface` of `d3d9_surface.h`, which is not
among the sources. A surface pairs a texture and a usage tag with the views
associated with it. -/
structure D3D9Surface where
  m_texture : Nat
  m_usage : Nat
  m_renderTargetView : Nat
  m_depthStencilView : Nat
deriving DecidableEq, Repr

/-- Modelled from the spec: the constructor of `D3D9Surface`, which is not among the
sources. It records the texture and the usage tag and creates the view whose kind the tag
names: a render-target view for `RENDERTARGET`, a depth-stencil view for `DEPTHSTENCIL`,
none for a plain surface. The view comes from the D3D11 device and is the argument `view`. -/
def D3D9Surface.new (view : Nat) (texture usage : Nat) : D3D9Surface :=
  { m_texture := texture, m_usage := usage,
    m_renderTargetView := if usage = D3DUSAGE_RENDERTARGET then view else 0,
    m_depthStencilView := if usage = D3DUSAGE_DEPTHSTENCIL then view else 0 }

/-- Modelled from the spec: the helper `SetInterface` at `ID3D11RenderTargetView`, which
is not among the sources. It associates the view with the surface. -/
def SetInterface_ID3D11RenderTargetView (surface : D3D9Surface) (view : Nat) : D3D9Surface :=
  { surface with m_renderTargetView := view }

/-- Modelled from the spec: the helper `GetInterface` at `ID3D11RenderTargetView`, which
is not among the sources. It fetches the render-target view from the surface, null if the
surface is unset. -/
def GetInterface_ID3D11RenderTargetView (surface : Option D3D9Surface) : Nat :=
  match surface with
  | none => 0
  | some s => s.m_renderTargetView

/-- Modelled from the spec: the helper `GetInterface` at `ID3D11DepthStencilView`, which
is not among the sources. It fetches the depth-stencil view from the surface, null if the
surface is unset. -/
def GetInterface_ID3D11DepthStencilView (surface : Option D3D9Surface) : Nat :=
  match surface with
  | none => 0
  | some s => s.m_depthStencilView

/-- The members of `D3D9Device`. A `Com` pointer to a surface is `none` when null. -/
structure D3D9Device where
  m_parent : Nat
  m_creationParams : D3DDEVICE_CREATION_PARAMETERS
  m_adapter : D3D9Adapter
  m_swapChain : Nat
  m_device : Nat
  m_ctx : Nat
  m_renderTarget : Option D3D9Surface
  m_depthStencil : Option D3D9Surface

/-- The method `D3D9Device::UpdateOMViews`: the call it issues on the immediate context. -/
def D3D9Device.UpdateOMViews (d : D3D9Device) : HostCall :=
  let renderTargetView := GetInterface_ID3D11RenderTargetView d.m_renderTarget
  let depthStencilView := GetInterface_ID3D11DepthStencilView d.m_depthStencil
  .OMSetRenderTargets d.m_ctx 1 [renderTargetView] depthStencilView

/-- What a run of the constructor leaves behind: the caller's presentation parameters
(passed by reference), the calls issued to the outside in program order, and the device
or the exception thrown. -/
structure Construction where
  pp : D3DPRESENT_PARAMETERS
  calls : List HostCall
  result : Except DxvkError D3D9Device

/-- The state of the constructor when it reaches the call of
`D3D11CreateDeviceAndSwapChain`: the caller's presentation parameters, the calls issued so
far, the target window and the swap-chain descriptor. -/
structure SwapChainSetup where
  pp : D3DPRESENT_PARAMETERS
  calls : List HostCall
  window : Nat
  scDesc : DXGI_SWAP_CHAIN_DESC

/-- The constructor `D3D9Device::D3D9Device` from the choice of the window to the
swap-chain descriptor (lines 16 to 88). The locals `msSamples` and `msQuality` are read
from `pp` and never used. -/
def D3D9Device.swapChainSetup (host : Host) (cp : D3DDEVICE_CREATION_PARAMETERS)
    (pp : D3DPRESENT_PARAMETERS) : SwapChainSetup :=
  let window := if pp.hDeviceWindow ≠ 0 then pp.hDeviceWindow else cp.hFocusWindow
  let width := pp.BackBufferWidth
  let height := pp.BackBufferWidth
  let useWindow : Bool := decide (width = 0 ∨ height = 0)
  let r := host.GetClientRect window { left := 0, top := 0, right := 0, bottom := 0 }
  let calls : List HostCall := if useWindow then [.GetClientRect window] else []
  let pp :=
    if useWindow then
      { pp with BackBufferWidth := toUINT (r.right - r.left),
                BackBufferHeight := toUINT (r.bottom - r.top) }
    else pp
  let refreshRate : DXGI_RATIONAL :=
    if pp.Windowed ≠ 0 ∨ pp.FullScreen_RefreshRateInHz = 0 then
      { Numerator := 60, Denominator := 1 }
    else
      { Numerator := pp.FullScreen_RefreshRateInHz, Denominator := 1 }
  let mode : DXGI_MODE_DESC :=
    { Width := pp.BackBufferWidth,
      Height := pp.BackBufferHeight,
      RefreshRate := refreshRate,
      Format := host.SurfaceFormatToDXGIFormat pp.BackBufferFormat,
      ScanlineOrdering := DXGI_MODE_SCANLINE_ORDER_UNSPECIFIED,
      Scaling := DXGI_MODE_SCALING_UNSPECIFIED }
  let samples : DXGI_SAMPLE_DESC := { Count := 1, Quality := 0 }
  let samples : DXGI_SAMPLE_DESC :=
    if pp.SwapEffect ≠ D3DSWAPEFFECT_DISCARD then { Count := 1, Quality := 0 } else samples
  let usage := DXGI_USAGE_BACK_BUFFER ||| DXGI_USAGE_RENDER_TARGET_OUTPUT
  let backBufferCount := min pp.BackBufferCount 1
  let pp := { pp with BackBufferCount := backBufferCount }
  let swapEffect := DXGI_SWAP_EFFECT_DISCARD
  let scDesc : DXGI_SWAP_CHAIN_DESC :=
    { BufferDesc := mode,
      SampleDesc := samples,
      BufferUsage := usage,
      BufferCount := backBufferCount,
      OutputWindow := window,
      Windowed := pp.Windowed,
      SwapEffect := swapEffect,
      Flags := 0 }
  { pp := pp, calls := calls, window := window, scDesc := scDesc }

/-- The arguments of the call of `D3D11CreateDeviceAndSwapChain` at lines 90 to 103: the
adapter, driver type `UNKNOWN`, no software module, no flags, no feature levels, the SDK
version and the swap-chain descriptor. -/
def D3D9Device.createArgs (dxgiAdapter : Nat) (scDesc : DXGI_SWAP_CHAIN_DESC) :
    CreateDeviceArgs :=
  { pAdapter := dxgiAdapter, DriverType := D3D_DRIVER_TYPE_UNKNOWN, Software := 0,
    Flags := 0, pFeatureLevels := 0, FeatureLevels := 0, SDKVersion := D3D11_SDK_VERSION,
    pSwapChainDesc := scDesc }

/-- The constructor `D3D9Device::D3D9Device`: the member initialisers and line 12, the
part `swapChainSetup`, and lines 90 to 134. -/
def D3D9Device.new (host : Host) (parent : Nat) (adapter : D3D9Adapter)
    (cp : D3DDEVICE_CREATION_PARAMETERS) (pp : D3DPRESENT_PARAMETERS) : Construction :=
  let dxgiAdapter := adapter.m_adapter.handle
  let setup := D3D9Device.swapChainSetup host cp pp
  let pp := setup.pp
  let args := D3D9Device.createArgs dxgiAdapter setup.scDesc
  let created := host.D3D11CreateDeviceAndSwapChain args
  let calls := setup.calls ++ [.D3D11CreateDeviceAndSwapChain args]
  if FAILED created.1 then
    { pp := pp, calls := calls, result := .error ⟨"Failed to create D3D9 device"⟩ }
  else
    let m_swapChain := created.2.swapChain
    let m_device := created.2.device
    let m_ctx := created.2.ctx
    let backBuffer := (host.GetBuffer m_swapChain 0).2
    let calls := calls ++ [.GetBuffer m_swapChain 0]
    let surface :=
      D3D9Surface.new (host.SurfaceView backBuffer D3DUSAGE_RENDERTARGET) backBuffer
        D3DUSAGE_RENDERTARGET
    let rt := host.CreateRenderTargetView m_device backBuffer
    let calls := calls ++ [.CreateRenderTargetView m_device backBuffer]
    if FAILED rt.1 then
      { pp := pp, calls := calls, result := .error ⟨"Failed to create render target"⟩ }
    else
      let rtView := rt.2
      let surface := SetInterface_ID3D11RenderTargetView surface rtView
      let device : D3D9Device :=
        { m_parent := parent, m_creationParams := cp, m_adapter := adapter,
          m_swapChain := m_swapChain, m_device := m_device, m_ctx := m_ctx,
          m_renderTarget := some surface, m_depthStencil := none }
      { pp := pp, calls := calls ++ [device.UpdateOMViews], result := .ok device }

/-- The swap-chain descriptors handed to `D3D11CreateDeviceAndSwapChain` in a run. -/
def swapChainDescs (calls : List HostCall) : List DXGI_SWAP_CHAIN_DESC :=
  calls.filterMap fun c =>
    match c with
    | .D3D11CreateDeviceAndSwapChain args => some args.pSwapChainDesc
    | _ => none

/-- The output-merger bindings issued in a run, oldest first. -/
def outputMergerBindings (calls : List HostCall) : List HostCall :=
  calls.filter fun c =>
    match c with
    | .OMSetRenderTargets _ _ _ _ => true
    | _ => false

/-! ## Concrete surroundings used to run the code -/

/-- `DXGI_ERROR_MORE_DATA` is `0x887A0003` read as a signed 32-bit integer. -/
def DXGI_ERROR_MORE_DATA : HRESULT := -2005270525

/-- `E_FAIL` is `0x80004005` read as a signed 32-bit integer. -/
def E_FAIL : HRESULT := -2147467259

/-- An output with monitor handle 7 that reports the modes `modes`: the count alone when
no buffer is passed, the modes when the buffer holds them all, and otherwise as many as
fit together with `DXGI_ERROR_MORE_DATA`. -/
def sampleOutput (modes : List DXGI_MODE_DESC) : IDXGIOutput :=
  { GetDesc := (0, 7),
    GetDisplayModeList := fun _ _ count buffer =>
      match buffer with
      | none => (0, modes.length, [])
      | some _ =>
        if count < modes.length then (DXGI_ERROR_MORE_DATA, count, modes.take count)
        else (0, modes.length, modes) }

/-- An adapter with one output, a descriptor that can be queried, and handle 1. -/
def sampleAdapter (desc : DXGI_ADAPTER_DESC1) (modes : List DXGI_MODE_DESC) : IDXGIAdapter1 :=
  { handle := 1, EnumOutputs := fun _ => (0, sampleOutput modes), GetDesc1 := (0, desc) }

/-- The descriptor of scenario 1 of the specification, with the description `name`. -/
def sampleDesc (name : String) : DXGI_ADAPTER_DESC1 :=
  { Description := name.toList.map Char.toNat,
    VendorId := 0x10DE, DeviceId := 0x2684, SubSysId := 0, Revision := 0xA1,
    AdapterLuid := { LowPart := 0x1234, HighPart := 0x5678 } }

/-- Narrowing of UTF-16 code units to bytes by dropping the high byte. -/
def narrow (ws : List Nat) : List Nat := ws.map (fun c => c % 256)

/-- The adapter wrapper the constructor builds from `sampleAdapter`. -/
def sampleD3D9Adapter (desc : DXGI_ADAPTER_DESC1) (modes : List DXGI_MODE_DESC) : D3D9Adapter :=
  { m_adapter := sampleAdapter desc modes, m_output := sampleOutput modes, m_monitor := 7,
    m_modes := modes }

/-- An output whose mode list shrinks between the two queries: the first reports two
modes, the second writes one and reports one. -/
def shrinkingOutput : IDXGIOutput :=
  { GetDesc := (0, 7),
    GetDisplayModeList := fun _ _ _ buffer =>
      match buffer with
      | none => (0, 2, [])
      | some _ =>
        (0, 1, [{ Width := 1920, Height := 1080,
                  RefreshRate := { Numerator := 60000, Denominator := 1000 },
                  Format := DXGI_FORMAT_B8G8R8A8_UNORM, ScanlineOrdering := 0, Scaling := 0 }]) }

def mode1080p : DXGI_MODE_DESC :=
  { Width := 1920, Height := 1080, RefreshRate := { Numerator := 59997, Denominator := 1000 },
    Format := DXGI_FORMAT_B8G8R8A8_UNORM, ScanlineOrdering := 0, Scaling := 0 }

/-- A mode whose refresh rate is the rational 0/0, which DXGI documents as a legal value. -/
def modeUnspecifiedRate : DXGI_MODE_DESC :=
  { Width := 640, Height := 480, RefreshRate := { Numerator := 0, Denominator := 0 },
    Format := DXGI_FORMAT_B8G8R8A8_UNORM, ScanlineOrdering := 0, Scaling := 0 }

def blankMode : D3DDISPLAYMODE := { Width := 0, Height := 0, RefreshRate := 0, Format := 0 }

/-- A host whose client rectangles are all `rect`, whose device creation answers
`createResult` with objects 10, 11 and 12, and whose `GetBuffer` and
`CreateRenderTargetView` answer `buffer` and `view`. -/
def sampleHost (rect : RECT) (createResult : HRESULT) (buffer view : HRESULT × Nat) : Host :=
  { GetClientRect := fun _ _ => rect,
    SurfaceFormatToDXGIFormat := fun _ => DXGI_FORMAT_B8G8R8A8_UNORM,
    D3D11CreateDeviceAndSwapChain := fun _ =>
      (createResult, { swapChain := 10, device := 11, ctx := 12 }),
    GetBuffer := fun _ _ => buffer,
    CreateRenderTargetView := fun _ _ => view,
    SurfaceView := fun _ _ => 30 }

def sampleCP : D3DDEVICE_CREATION_PARAMETERS :=
  { AdapterOrdinal := 0, DeviceType := 1, hFocusWindow := 100, BehaviorFlags := 0 }

/-- Presentation parameters with device window 200 and `EnableAutoDepthStencil` set. -/
def samplePP (width height count : UINT) (windowed : Int) (rate : UINT) :
    D3DPRESENT_PARAMETERS :=
  { BackBufferWidth := width, BackBufferHeight := height, BackBufferFormat := 22,
    BackBufferCount := count, MultiSampleType := 0, MultiSampleQuality := 0,
    SwapEffect := D3DSWAPEFFECT_DISCARD, hDeviceWindow := 200, Windowed := windowed,
    EnableAutoDepthStencil := 1, AutoDepthStencilFormat := 75, Flags := 0,
    FullScreen_RefreshRateInHz := rate, PresentationInterval := 0 }

/-! # Theorems -/

/-! ## Display modes -/

theorem writeBuffer_length (buffer written : List DXGI_MODE_DESC) :
    (writeBuffer buffer written).length = buffer.length := by
  simp only [writeBuffer, List.length_append, List.length_take, List.length_drop]
  omega

theorem getOutputModes_length_lt (output : IDXGIOutput) (modes : List DXGI_MODE_DESC)
    (h : getOutputModes output = .ok modes) : modes.length < UINT_RANGE := by
  unfold getOutputModes at h
  simp only at h
  split at h
  · cases h
  · injection h with h
    subst h
    rw [writeBuffer_length, List.length_replicate]
    exact Nat.mod_lt _ (by decide)

theorem new_modes_length_lt (adapter : IDXGIAdapter1) (A : D3D9Adapter)
    (h : D3D9Adapter.new adapter = .ok A) : A.m_modes.length < UINT_RANGE := by
  unfold D3D9Adapter.new at h
  split at h
  · cases h
  · split at h
    · cases h
    · split at h
      · cases h
      · rename_i modes hm
        injection h with h
        subst h
        exact getOutputModes_length_lt _ _ hm

theorem GetMode_eq_of_mode (a : D3D9Adapter) (i : UINT) (mode : D3DDISPLAYMODE)
    (desc : DXGI_MODE_DESC) (hdesc : a.m_modes[i]? = some desc) :
    a.GetMode i mode =
      if desc.RefreshRate.Denominator = 0 then none
      else some { mode with
        Width := desc.Width, Height := desc.Height,
        RefreshRate := desc.RefreshRate.Numerator / desc.RefreshRate.Denominator } := by
  simp [D3D9Adapter.GetMode, hdesc]

theorem cached_of_lt_GetModeCount (a : D3D9Adapter) (i : UINT) (hi : i < a.GetModeCount) :
    ∃ desc, a.m_modes[i]? = some desc := by
  have hlt : i < a.m_modes.length :=
    Nat.lt_of_lt_of_le hi (Nat.mod_le _ _)
  exact ⟨a.m_modes[i], List.getElem?_eq_getElem hlt⟩

/-- The vector of modes keeps the size the first query reported: an entry the second query
does not write stays value-initialised, with the refresh rate 0/0. -/
theorem getOutputModes_keeps_first_count :
    getOutputModes shrinkingOutput =
      .ok [{ Width := 1920, Height := 1080,
             RefreshRate := { Numerator := 60000, Denominator := 1000 },
             Format := DXGI_FORMAT_B8G8R8A8_UNORM, ScanlineOrdering := 0, Scaling := 0 },
           DXGI_MODE_DESC.zero] :=
  rfl

/-- Claim C6: for a cached mode `desc` at index `i` (every `i < GetModeCount()` has one, see
`cached_of_lt_GetModeCount`) whose refresh denominator is not 0, `GetMode(i)` succeeds and
writes the width and the height of the cached mode and the truncating quotient
`Numerator / Denominator` as refresh rate, leaving `Format` as it was; a second call, on the
record just written or on any record with the same `Format`, yields the identical record. -/
theorem GetMode_truncates_refresh_rate (a : D3D9Adapter) (i : UINT) (mode : D3DDISPLAYMODE)
    (desc : DXGI_MODE_DESC) (hdesc : a.m_modes[i]? = some desc)
    (hden : desc.RefreshRate.Denominator ≠ 0) :
    ∃ out : D3DDISPLAYMODE,
      a.GetMode i mode = some out ∧
      out.Width = desc.Width ∧ out.Height = desc.Height ∧
      out.RefreshRate = desc.RefreshRate.Numerator / desc.RefreshRate.Denominator ∧
      out.RefreshRate * desc.RefreshRate.Denominator ≤ desc.RefreshRate.Numerator ∧
      desc.RefreshRate.Numerator < (out.RefreshRate + 1) * desc.RefreshRate.Denominator ∧
      out.Format = mode.Format ∧
      a.GetMode i out = some out ∧
      ∀ mode2 : D3DDISPLAYMODE, mode2.Format = mode.Format → a.GetMode i mode2 = some out := by
  have hpos : 0 < desc.RefreshRate.Denominator := Nat.pos_of_ne_zero hden
  refine ⟨{ mode with
      Width := desc.Width, Height := desc.Height,
      RefreshRate := desc.RefreshRate.Numerator / desc.RefreshRate.Denominator },
    ?_, rfl, rfl, rfl, ?_, ?_, rfl, ?_, ?_⟩
  · rw [GetMode_eq_of_mode a i mode desc hdesc, if_neg hden]
  · exact Nat.div_mul_le_self _ _
  · exact (Nat.div_lt_iff_lt_mul hpos).mp (Nat.lt_succ_self _)
  · rw [GetMode_eq_of_mode a i _ desc hdesc, if_neg hden]
  · intro mode2 h2
    rw [GetMode_eq_of_mode a i _ desc hdesc, if_neg hden, h2]

/-- Scenario 2 of the specification as an instance of claim C6: 1920x1080 at 59997/1000
yields the record 1920, 1080, 59. -/
theorem GetMode_truncates_refresh_rate_witness :
    (sampleD3D9Adapter (sampleDesc "GPU") [mode1080p]).m_modes[0]? = some mode1080p ∧
    mode1080p.RefreshRate.Denominator ≠ 0 ∧
    (sampleD3D9Adapter (sampleDesc "GPU") [mode1080p]).GetMode 0 blankMode =
      some { Width := 1920, Height := 1080, RefreshRate := 59, Format := 0 } ∧
    ∃ out : D3DDISPLAYMODE,
      (sampleD3D9Adapter (sampleDesc "GPU") [mode1080p]).GetMode 0 blankMode = some out ∧
      out.Width = mode1080p.Width ∧ out.Height = mode1080p.Height ∧
      out.RefreshRate = mode1080p.RefreshRate.Numerator / mode1080p.RefreshRate.Denominator ∧
      out.RefreshRate * mode1080p.RefreshRate.Denominator ≤ mode1080p.RefreshRate.Numerator ∧
      mode1080p.RefreshRate.Numerator <
        (out.RefreshRate + 1) * mode1080p.RefreshRate.Denominator ∧
      out.Format = blankMode.Format ∧
      (sampleD3D9Adapter (sampleDesc "GPU") [mode1080p]).GetMode 0 out = some out ∧
      ∀ mode2 : D3DDISPLAYMODE, mode2.Format = blankMode.Format →
        (sampleD3D9Adapter (sampleDesc "GPU") [mode1080p]).GetMode 0 mode2 = some out :=
  ⟨rfl, by decide, by decide,
    GetMode_truncates_refresh_rate (sampleD3D9Adapter (sampleDesc "GPU") [mode1080p]) 0
      blankMode mode1080p rfl (by decide)⟩

/-- Claim C7 fails as stated: an output reports the single mode 640x480 with the refresh
rate 0/0, the adapter is constructed and counts one mode, and `GetMode(0)` divides by
zero. -/
theorem GetMode_undefined_for_reported_zero_denominator :
    D3D9Adapter.new (sampleAdapter (sampleDesc "GPU") [modeUnspecifiedRate]) =
      .ok (sampleD3D9Adapter (sampleDesc "GPU") [modeUnspecifiedRate]) ∧
    (sampleD3D9Adapter (sampleDesc "GPU") [modeUnspecifiedRate]).GetModeCount = 1 ∧
    (sampleD3D9Adapter (sampleDesc "GPU") [modeUnspecifiedRate]).GetMode 0 blankMode = none :=
  ⟨rfl, by decide, by decide⟩

/-- Claim C7 amended: for a constructed adapter `GetModeCount()` is the length of the cached
mode sequence, every index below it is in range, and `GetMode(i)` is defined exactly when the
cached mode at `i` has a refresh denominator other than 0. -/
theorem GetMode_defined_iff_denominator_nonzero (adapter : IDXGIAdapter1) (A : D3D9Adapter)
    (h : D3D9Adapter.new adapter = .ok A) :
    A.GetModeCount = A.m_modes.length ∧
    ∀ i : UINT, i < A.GetModeCount →
      ∃ desc, A.m_modes[i]? = some desc ∧
        (desc.RefreshRate.Denominator ≠ 0 →
          ∀ mode : D3DDISPLAYMODE, (A.GetMode i mode).isSome = true) ∧
        (desc.RefreshRate.Denominator = 0 →
          ∀ mode : D3DDISPLAYMODE, A.GetMode i mode = none) := by
  refine ⟨Nat.mod_eq_of_lt (new_modes_length_lt adapter A h), ?_⟩
  intro i hi
  obtain ⟨desc, hdesc⟩ := cached_of_lt_GetModeCount A i hi
  refine ⟨desc, hdesc, ?_, ?_⟩
  · intro hden mode
    rw [GetMode_eq_of_mode A i mode desc hdesc, if_neg hden]
    rfl
  · intro hden mode
    rw [GetMode_eq_of_mode A i mode desc hdesc, if_pos hden]

/-- An instance of amended claim C7: an adapter whose output reports two modes. -/
theorem GetMode_defined_iff_denominator_nonzero_witness :
    D3D9Adapter.new (sampleAdapter (sampleDesc "GPU") [mode1080p, modeUnspecifiedRate]) =
      .ok (sampleD3D9Adapter (sampleDesc "GPU") [mode1080p, modeUnspecifiedRate]) ∧
    (sampleD3D9Adapter (sampleDesc "GPU") [mode1080p, modeUnspecifiedRate]).GetModeCount =
      (sampleD3D9Adapter (sampleDesc "GPU") [mode1080p, modeUnspecifiedRate]).m_modes.length ∧
    ∀ i : UINT,
      i < (sampleD3D9Adapter (sampleDesc "GPU") [mode1080p, modeUnspecifiedRate]).GetModeCount →
      ∃ desc,
        (sampleD3D9Adapter (sampleDesc "GPU") [mode1080p, modeUnspecifiedRate]).m_modes[i]? =
          some desc ∧
        (desc.RefreshRate.Denominator ≠ 0 → ∀ mode : D3DDISPLAYMODE,
          ((sampleD3D9Adapter (sampleDesc "GPU") [mode1080p, modeUnspecifiedRate]).GetMode i
            mode).isSome = true) ∧
        (desc.RefreshRate.Denominator = 0 → ∀ mode : D3DDISPLAYMODE,
          (sampleD3D9Adapter (sampleDesc "GPU") [mode1080p, modeUnspecifiedRate]).GetMode i
            mode = none) :=
  ⟨rfl, GetMode_defined_iff_denominator_nonzero
    (sampleAdapter (sampleDesc "GPU") [mode1080p, modeUnspecifiedRate])
    (sampleD3D9Adapter (sampleDesc "GPU") [mode1080p, modeUnspecifiedRate]) rfl⟩

/-! ## The adapter identifier -/

theorem cstr_eq_self (s : List Nat) (h : ∀ b ∈ s, b ≠ 0) : cstr s = s := by
  unfold cstr
  rw [List.takeWhile_eq_self_iff]
  intro b hb
  simpa using h b hb

theorem suffix_nonzero : ∀ b ∈ DESCRIPTION_SUFFIX, b ≠ 0 := by decide

theorem suffix_length : DESCRIPTION_SUFFIX.length = 19 := by decide

theorem strcpy_fits (dst src : List Nat) (h : (cstr src).length + 1 ≤ dst.length) :
    strcpy dst src = some (cstr src ++ 0 :: dst.drop ((cstr src).length + 1)) := by
  simp [strcpy, h]

theorem strcpy_overflow (dst src : List Nat) (h : dst.length < (cstr src).length + 1) :
    strcpy dst src = none := by
  simp [strcpy, Nat.not_le.mpr h]

theorem strcpy_length (dst src out : List Nat) (h : strcpy dst src = some out) :
    out.length = dst.length := by
  unfold strcpy at h
  simp only at h
  split at h
  · injection h with h
    subst h
    simp only [List.length_append, List.length_cons, List.length_drop]
    omega
  · cases h

theorem leBytes_length (k n : Nat) : (leBytes k n).length = k := by
  simp [leBytes]

theorem LUID_bytes_length (l : LUID) : l.bytes.length = LUID_SIZE := by
  simp [LUID.bytes, leBytes_length, LUID_SIZE]

theorem GetIdentifier_query_failed (fromws : List Nat → List Nat) (a : D3D9Adapter)
    (ident : D3DADAPTER_IDENTIFIER9) (hq : FAILED a.m_adapter.GetDesc1.1 = true) :
    a.GetIdentifier fromws ident = some (D3DERR_INVALIDCALL, ident) := by
  simp [D3D9Adapter.GetIdentifier, hq]

theorem GetIdentifier_name_too_long (fromws : List Nat → List Nat) (a : D3D9Adapter)
    (ident : D3DADAPTER_IDENTIFIER9) (hq : FAILED a.m_adapter.GetDesc1.1 = false)
    (hlen : DEVICE_NAME_CAPACITY ≤ (cstr (fromws a.m_adapter.GetDesc1.2.Description)).length) :
    a.GetIdentifier fromws ident = none := by
  have h : strcpy D3DADAPTER_IDENTIFIER9.zero.DeviceName
      (fromws a.m_adapter.GetDesc1.2.Description) = none := by
    apply strcpy_overflow
    simp only [D3DADAPTER_IDENTIFIER9.zero, List.length_replicate]
    omega
  simp [D3D9Adapter.GetIdentifier, hq, h]

theorem cstr_append_zeros (s : List Nat) (k : Nat) (h : ∀ b ∈ s, b ≠ 0) :
    cstr (s ++ List.replicate k 0) = s := by
  induction s with
  | nil =>
    cases k with
    | zero => rfl
    | succ k => simp [cstr, List.replicate_succ]
  | cons b s ih =>
    have hb : b ≠ 0 := h b (List.mem_cons_self _ _)
    have hs : ∀ c ∈ s, c ≠ 0 := fun c hc => h c (List.mem_cons_of_mem _ hc)
    have ih2 := ih hs
    unfold cstr at ih2 ⊢
    simp [List.takeWhile_cons, hb, ih2]

theorem strcpy_zero_buffer (cap : Nat) (s : List Nat) (h : ∀ b ∈ s, b ≠ 0)
    (hlen : s.length < cap) :
    strcpy (List.replicate cap 0) s = some (s ++ List.replicate (cap - s.length) 0) := by
  have hc : cstr s = s := cstr_eq_self s h
  have hfit : (cstr s).length + 1 ≤ (List.replicate cap (0 : Nat)).length := by
    rw [hc, List.length_replicate]
    omega
  rw [strcpy_fits _ _ hfit, hc, List.drop_replicate]
  have hk : cap - s.length = (cap - (s.length + 1)) + 1 := by omega
  rw [hk, List.replicate_succ]

theorem literal_DXVK_nonzero : ∀ b ∈ literal "DXVK", b ≠ 0 := by decide

theorem GetIdentifier_name_fits (fromws : List Nat → List Nat) (a : D3D9Adapter)
    (ident0 : D3DADAPTER_IDENTIFIER9) (hq : FAILED a.m_adapter.GetDesc1.1 = false)
    (hnul : ∀ b ∈ fromws a.m_adapter.GetDesc1.2.Description, b ≠ 0)
    (hlen : (fromws a.m_adapter.GetDesc1.2.Description).length < DEVICE_NAME_CAPACITY) :
    ∃ ident : D3DADAPTER_IDENTIFIER9,
      a.GetIdentifier fromws ident0 = some (D3D_OK, ident) ∧
      ident.DeviceName = fromws a.m_adapter.GetDesc1.2.Description ++
        List.replicate
          (DEVICE_NAME_CAPACITY - (fromws a.m_adapter.GetDesc1.2.Description).length) 0 ∧
      ident.Description =
        fromws a.m_adapter.GetDesc1.2.Description ++ DESCRIPTION_SUFFIX ++
        List.replicate (MAX_DEVICE_IDENTIFIER_STRING -
          ((fromws a.m_adapter.GetDesc1.2.Description).length + 19)) 0 ∧
      ident.Driver = literal "DXVK" ++ List.replicate (MAX_DEVICE_IDENTIFIER_STRING - 4) 0 ∧
      cstr ident.DeviceName = fromws a.m_adapter.GetDesc1.2.Description ∧
      cstr ident.Description = cstr ident.DeviceName ++ DESCRIPTION_SUFFIX ∧
      cstr ident.Driver = literal "DXVK" ∧
      ident.DriverVersion = 1 ∧ ident.WHQLLevel = 1 ∧
      ident.VendorId = a.m_adapter.GetDesc1.2.VendorId ∧
      ident.DeviceId = a.m_adapter.GetDesc1.2.DeviceId ∧
      ident.SubSysId = a.m_adapter.GetDesc1.2.SubSysId ∧
      ident.Revision = a.m_adapter.GetDesc1.2.Revision ∧
      ident.DeviceIdentifier =
        a.m_adapter.GetDesc1.2.AdapterLuid.bytes ++ List.replicate 8 0 := by
  have hs : ∀ b ∈ fromws a.m_adapter.GetDesc1.2.Description ++ DESCRIPTION_SUFFIX, b ≠ 0 := by
    intro b hb
    rcases List.mem_append.mp hb with hb | hb
    · exact hnul b hb
    · exact suffix_nonzero b hb
  have hslen : (fromws a.m_adapter.GetDesc1.2.Description ++ DESCRIPTION_SUFFIX).length =
      (fromws a.m_adapter.GetDesc1.2.Description).length + 19 := by
    rw [List.length_append, suffix_length]
  have h1 := strcpy_zero_buffer DEVICE_NAME_CAPACITY _ hnul hlen
  have h2 := strcpy_zero_buffer MAX_DEVICE_IDENTIFIER_STRING _ hs (by
    rw [hslen]
    simp only [DEVICE_NAME_CAPACITY, MAX_DEVICE_IDENTIFIER_STRING] at hlen ⊢
    omega)
  have h3 := strcpy_zero_buffer MAX_DEVICE_IDENTIFIER_STRING _ literal_DXVK_nonzero
    (by decide)
  rw [hslen] at h2
  have hmem : memcpy (List.replicate GUID_SIZE 0) a.m_adapter.GetDesc1.2.AdapterLuid.bytes
      LUID_SIZE = a.m_adapter.GetDesc1.2.AdapterLuid.bytes ++ List.replicate 8 0 := by
    unfold memcpy
    rw [List.take_of_length_le (le_of_eq (LUID_bytes_length _)), List.drop_replicate]
    rfl
  have hd : (literal "DXVK").length = 4 := by decide
  rw [hd] at h3
  refine ⟨
    { Driver := literal "DXVK" ++ List.replicate (MAX_DEVICE_IDENTIFIER_STRING - 4) 0,
      Description := fromws a.m_adapter.GetDesc1.2.Description ++ DESCRIPTION_SUFFIX ++
        List.replicate (MAX_DEVICE_IDENTIFIER_STRING -
          ((fromws a.m_adapter.GetDesc1.2.Description).length + 19)) 0,
      DeviceName := fromws a.m_adapter.GetDesc1.2.Description ++
        List.replicate
          (DEVICE_NAME_CAPACITY - (fromws a.m_adapter.GetDesc1.2.Description).length) 0,
      DriverVersion := 1,
      VendorId := a.m_adapter.GetDesc1.2.VendorId,
      DeviceId := a.m_adapter.GetDesc1.2.DeviceId,
      SubSysId := a.m_adapter.GetDesc1.2.SubSysId,
      Revision := a.m_adapter.GetDesc1.2.Revision,
      DeviceIdentifier := a.m_adapter.GetDesc1.2.AdapterLuid.bytes ++ List.replicate 8 0,
      WHQLLevel := 1 },
    ?_, rfl, rfl, rfl, ?_, ?_, ?_, rfl, rfl, rfl, rfl, rfl, rfl, rfl⟩
  · simp only [D3D9Adapter.GetIdentifier, hq, D3DADAPTER_IDENTIFIER9.zero, h1, h2, h3, hmem]
    rfl
  · exact cstr_append_zeros _ _ hnul
  · rw [cstr_append_zeros _ _ hs, cstr_append_zeros _ _ hnul]
  · exact cstr_append_zeros _ _ literal_DXVK_nonzero

set_option maxRecDepth 8000 in
/-- Scenario 1 of the specification: the description "NVIDIA GeForce RTX 4090" has 23
bytes and fits into `DeviceName`. -/
theorem GetIdentifier_scenario :
    ((sampleD3D9Adapter (sampleDesc "NVIDIA GeForce RTX 4090") []).GetIdentifier narrow
      D3DADAPTER_IDENTIFIER9.zero).map
      (fun r => (r.1, cstr r.2.DeviceName, cstr r.2.Description, cstr r.2.Driver,
        r.2.DriverVersion, r.2.WHQLLevel, r.2.VendorId, r.2.DeviceId, r.2.SubSysId,
        r.2.Revision, r.2.DeviceIdentifier)) =
      some (D3D_OK, literal "NVIDIA GeForce RTX 4090",
        literal "NVIDIA GeForce RTX 4090 (D3D9 DXVK Driver)", literal "DXVK",
        1, 1, 0x10DE, 0x2684, 0, 0xA1,
        [0x34, 0x12, 0, 0, 0x78, 0x56, 0, 0, 0, 0, 0, 0, 0, 0, 0, 0]) := by
  rfl

/-- Claim C4 at the description "AMD Radeon RX 7900 XTX (RADV NAVI31)": the descriptor
query succeeds, the narrowed name has 36 bytes, and `GetIdentifier` does not produce a
record: the `strcpy` into the 32-byte `DeviceName` is undefined. -/
theorem GetIdentifier_no_record_for_long_name :
    FAILED (sampleD3D9Adapter (sampleDesc "AMD Radeon RX 7900 XTX (RADV NAVI31)")
      []).m_adapter.GetDesc1.1 = false ∧
    (cstr (narrow (sampleDesc "AMD Radeon RX 7900 XTX (RADV NAVI31)").Description)).length
      = 36 ∧
    (sampleD3D9Adapter (sampleDesc "AMD Radeon RX 7900 XTX (RADV NAVI31)") []).GetIdentifier
      narrow D3DADAPTER_IDENTIFIER9.zero = none := by
  decide

/-- Claim C5 at the description "NVIDIA GeForce RTX 4090 Laptop GPU": its 34 characters fit
the descriptor, and `strcpy` writes them and the terminator to the 32-byte `DeviceName`
without truncating, past the end of the array. -/
theorem GetIdentifier_writes_past_end_of_DeviceName :
    (sampleDesc "NVIDIA GeForce RTX 4090 Laptop GPU").Description.length + 1 ≤
      DXGI_DESCRIPTION_CAPACITY ∧
    (cstr (narrow (sampleDesc "NVIDIA GeForce RTX 4090 Laptop GPU").Description)).length
      = 34 ∧
    D3DADAPTER_IDENTIFIER9.zero.DeviceName.length = 32 ∧
    strcpy D3DADAPTER_IDENTIFIER9.zero.DeviceName
      (narrow (sampleDesc "NVIDIA GeForce RTX 4090 Laptop GPU").Description) = none ∧
    (sampleD3D9Adapter (sampleDesc "NVIDIA GeForce RTX 4090 Laptop GPU") []).GetIdentifier
      narrow D3DADAPTER_IDENTIFIER9.zero = none := by
  decide

/-! ## The device constructor -/

theorem swapChainSetup_pp (host : Host) (cp : D3DDEVICE_CREATION_PARAMETERS)
    (pp : D3DPRESENT_PARAMETERS) :
    (D3D9Device.swapChainSetup host cp pp).pp =
      if pp.BackBufferWidth = 0 then
        { pp with
          BackBufferWidth := toUINT
            ((host.GetClientRect (if pp.hDeviceWindow ≠ 0 then pp.hDeviceWindow
                else cp.hFocusWindow) { left := 0, top := 0, right := 0, bottom := 0 }).right -
              (host.GetClientRect (if pp.hDeviceWindow ≠ 0 then pp.hDeviceWindow
                else cp.hFocusWindow) { left := 0, top := 0, right := 0, bottom := 0 }).left),
          BackBufferHeight := toUINT
            ((host.GetClientRect (if pp.hDeviceWindow ≠ 0 then pp.hDeviceWindow
                else cp.hFocusWindow) { left := 0, top := 0, right := 0, bottom := 0 }).bottom -
              (host.GetClientRect (if pp.hDeviceWindow ≠ 0 then pp.hDeviceWindow
                else cp.hFocusWindow) { left := 0, top := 0, right := 0, bottom := 0 }).top),
          BackBufferCount := min pp.BackBufferCount 1 }
      else { pp with BackBufferCount := min pp.BackBufferCount 1 } := by
  by_cases hw : pp.BackBufferWidth = 0 <;> simp [D3D9Device.swapChainSetup, hw]

theorem swapChainSetup_BufferCount (host : Host) (cp : D3DDEVICE_CREATION_PARAMETERS)
    (pp : D3DPRESENT_PARAMETERS) :
    (D3D9Device.swapChainSetup host cp pp).scDesc.BufferCount = min pp.BackBufferCount 1 := by
  by_cases hw : pp.BackBufferWidth = 0 <;> simp [D3D9Device.swapChainSetup, hw]

theorem swapChainSetup_RefreshRate (host : Host) (cp : D3DDEVICE_CREATION_PARAMETERS)
    (pp : D3DPRESENT_PARAMETERS) :
    (D3D9Device.swapChainSetup host cp pp).scDesc.BufferDesc.RefreshRate =
      if pp.Windowed = 0 ∧ pp.FullScreen_RefreshRateInHz ≠ 0 then
        { Numerator := pp.FullScreen_RefreshRateInHz, Denominator := 1 }
      else
        { Numerator := 60, Denominator := 1 } := by
  by_cases hw : pp.BackBufferWidth = 0 <;>
    by_cases h1 : pp.Windowed = 0 <;>
    by_cases h2 : pp.FullScreen_RefreshRateInHz = 0 <;>
    simp [D3D9Device.swapChainSetup, hw, h1, h2]

theorem new_pp (host : Host) (parent : Nat) (adapter : D3D9Adapter)
    (cp : D3DDEVICE_CREATION_PARAMETERS) (pp : D3DPRESENT_PARAMETERS) :
    (D3D9Device.new host parent adapter cp pp).pp = (D3D9Device.swapChainSetup host cp pp).pp := by
  unfold D3D9Device.new
  simp only
  split
  · rfl
  · split <;> rfl

theorem new_swapChainDescs (host : Host) (parent : Nat) (adapter : D3D9Adapter)
    (cp : D3DDEVICE_CREATION_PARAMETERS) (pp : D3DPRESENT_PARAMETERS) :
    swapChainDescs (D3D9Device.new host parent adapter cp pp).calls =
      [(D3D9Device.swapChainSetup host cp pp).scDesc] := by
  have h0 : swapChainDescs (D3D9Device.swapChainSetup host cp pp).calls = [] := by
    by_cases hw : pp.BackBufferWidth = 0 <;>
      simp [D3D9Device.swapChainSetup, hw, swapChainDescs]
  unfold swapChainDescs at h0 ⊢
  unfold D3D9Device.new
  simp only
  split
  · simp [List.filterMap_append, h0, D3D9Device.createArgs]
  · split <;> simp [List.filterMap_append, h0, D3D9Device.UpdateOMViews, D3D9Device.createArgs]

theorem toUINT_of_inRange (x : Int) (h0 : 0 ≤ x) (h1 : x < 2 ^ 32) : (toUINT x : Int) = x := by
  unfold toUINT UINT_RANGE
  have hm : x % ((2 ^ 32 : Nat) : Int) = x := Int.emod_eq_of_lt h0 (by exact_mod_cast h1)
  rw [hm]
  exact Int.toNat_of_nonneg h0

theorem new_result_ok (host : Host) (parent : Nat) (adapter : D3D9Adapter)
    (cp : D3DDEVICE_CREATION_PARAMETERS) (pp : D3DPRESENT_PARAMETERS) (dev : D3D9Device)
    (h : (D3D9Device.new host parent adapter cp pp).result = .ok dev) :
    FAILED (host.D3D11CreateDeviceAndSwapChain (D3D9Device.createArgs adapter.m_adapter.handle
      (D3D9Device.swapChainSetup host cp pp).scDesc)).1 = false ∧
    dev.m_swapChain = (host.D3D11CreateDeviceAndSwapChain
      (D3D9Device.createArgs adapter.m_adapter.handle
        (D3D9Device.swapChainSetup host cp pp).scDesc)).2.swapChain ∧
    dev.m_device = (host.D3D11CreateDeviceAndSwapChain
      (D3D9Device.createArgs adapter.m_adapter.handle
        (D3D9Device.swapChainSetup host cp pp).scDesc)).2.device ∧
    dev.m_ctx = (host.D3D11CreateDeviceAndSwapChain
      (D3D9Device.createArgs adapter.m_adapter.handle
        (D3D9Device.swapChainSetup host cp pp).scDesc)).2.ctx ∧
    FAILED (host.CreateRenderTargetView dev.m_device
      (host.GetBuffer dev.m_swapChain 0).2).1 = false ∧
    dev.m_renderTarget = some
      { m_texture := (host.GetBuffer dev.m_swapChain 0).2,
        m_usage := D3DUSAGE_RENDERTARGET,
        m_renderTargetView := (host.CreateRenderTargetView dev.m_device
          (host.GetBuffer dev.m_swapChain 0).2).2,
        m_depthStencilView := 0 } ∧
    dev.m_depthStencil = none ∧
    dev.m_parent = parent ∧ dev.m_creationParams = cp ∧
    (D3D9Device.new host parent adapter cp pp).calls =
      (D3D9Device.swapChainSetup host cp pp).calls ++
        [.D3D11CreateDeviceAndSwapChain (D3D9Device.createArgs adapter.m_adapter.handle
            (D3D9Device.swapChainSetup host cp pp).scDesc),
          .GetBuffer dev.m_swapChain 0,
          .CreateRenderTargetView dev.m_device (host.GetBuffer dev.m_swapChain 0).2,
          dev.UpdateOMViews] := by
  unfold D3D9Device.new at h ⊢
  simp only at h ⊢
  split at h
  · cases h
  · rename_i hc
    split at h
    · cases h
    · rename_i hv
      injection h with h
      subst h
      refine ⟨by simpa using hc, rfl, rfl, rfl, by simpa using hv, ?_, rfl, rfl, rfl, ?_⟩
      · simp [SetInterface_ID3D11RenderTargetView, D3D9Surface.new, D3DUSAGE_RENDERTARGET,
          D3DUSAGE_DEPTHSTENCIL]
      · simp [hc, hv]

theorem new_result_error_of_create_failed (host : Host) (parent : Nat) (adapter : D3D9Adapter)
    (cp : D3DDEVICE_CREATION_PARAMETERS) (pp : D3DPRESENT_PARAMETERS)
    (h : FAILED (host.D3D11CreateDeviceAndSwapChain
      (D3D9Device.createArgs adapter.m_adapter.handle
        (D3D9Device.swapChainSetup host cp pp).scDesc)).1 = true) :
    (D3D9Device.new host parent adapter cp pp).result =
      .error ⟨"Failed to create D3D9 device"⟩ := by
  unfold D3D9Device.new
  simp [h]

theorem new_result_error_of_view_failed (host : Host) (parent : Nat) (adapter : D3D9Adapter)
    (cp : D3DDEVICE_CREATION_PARAMETERS) (pp : D3DPRESENT_PARAMETERS)
    (hc : FAILED (host.D3D11CreateDeviceAndSwapChain
      (D3D9Device.createArgs adapter.m_adapter.handle
        (D3D9Device.swapChainSetup host cp pp).scDesc)).1 = false)
    (hv : FAILED (host.CreateRenderTargetView
      (host.D3D11CreateDeviceAndSwapChain (D3D9Device.createArgs adapter.m_adapter.handle
        (D3D9Device.swapChainSetup host cp pp).scDesc)).2.device
      (host.GetBuffer (host.D3D11CreateDeviceAndSwapChain
        (D3D9Device.createArgs adapter.m_adapter.handle
          (D3D9Device.swapChainSetup host cp pp).scDesc)).2.swapChain 0).2).1 = true) :
    (D3D9Device.new host parent adapter cp pp).result =
      .error ⟨"Failed to create render target"⟩ := by
  unfold D3D9Device.new
  simp [hc, hv]

/-- The result of `GetBuffer` has no part in the outcome: the construction succeeds as
soon as the creation of the device and of the render-target view succeed. -/
theorem new_result_ok_of_checks (host : Host) (parent : Nat) (adapter : D3D9Adapter)
    (cp : D3DDEVICE_CREATION_PARAMETERS) (pp : D3DPRESENT_PARAMETERS)
    (hc : FAILED (host.D3D11CreateDeviceAndSwapChain
      (D3D9Device.createArgs adapter.m_adapter.handle
        (D3D9Device.swapChainSetup host cp pp).scDesc)).1 = false)
    (hv : FAILED (host.CreateRenderTargetView
      (host.D3D11CreateDeviceAndSwapChain (D3D9Device.createArgs adapter.m_adapter.handle
        (D3D9Device.swapChainSetup host cp pp).scDesc)).2.device
      (host.GetBuffer (host.D3D11CreateDeviceAndSwapChain
        (D3D9Device.createArgs adapter.m_adapter.handle
          (D3D9Device.swapChainSetup host cp pp).scDesc)).2.swapChain 0).2).1 = false) :
    (D3D9Device.new host parent adapter cp pp).result.toBool = true := by
  unfold D3D9Device.new
  simp [hc, hv, Except.toBool]

theorem swapChainSetup_calls_no_binding (host : Host) (cp : D3DDEVICE_CREATION_PARAMETERS)
    (pp : D3DPRESENT_PARAMETERS) :
    outputMergerBindings (D3D9Device.swapChainSetup host cp pp).calls = [] := by
  by_cases hw : pp.BackBufferWidth = 0 <;>
    simp [D3D9Device.swapChainSetup, hw, outputMergerBindings]

/-! ## The claims about the device constructor -/

/-- Claim C1 fails as stated: both dimensions are 0 on entry, the client rectangle of the
target window is empty, the device is constructed, and both dimensions are 0 on exit. -/
theorem backBuffer_size_zero_for_empty_client_rect :
    ((samplePP 0 0 1 1 0).BackBufferWidth = 0 ∨ (samplePP 0 0 1 1 0).BackBufferHeight = 0) ∧
    (sampleHost { left := 0, top := 0, right := 0, bottom := 0 } 0 (0, 20) (0, 21)).GetClientRect
      200 { left := 0, top := 0, right := 0, bottom := 0 } =
      { left := 0, top := 0, right := 0, bottom := 0 } ∧
    (D3D9Device.new (sampleHost { left := 0, top := 0, right := 0, bottom := 0 } 0 (0, 20) (0, 21))
      5 (sampleD3D9Adapter (sampleDesc "GPU") []) sampleCP
      (samplePP 0 0 1 1 0)).result.toBool = true ∧
    (D3D9Device.new (sampleHost { left := 0, top := 0, right := 0, bottom := 0 } 0 (0, 20) (0, 21))
      5 (sampleD3D9Adapter (sampleDesc "GPU") []) sampleCP
      (samplePP 0 0 1 1 0)).pp.BackBufferWidth = 0 ∧
    (D3D9Device.new (sampleHost { left := 0, top := 0, right := 0, bottom := 0 } 0 (0, 20) (0, 21))
      5 (sampleD3D9Adapter (sampleDesc "GPU") []) sampleCP
      (samplePP 0 0 1 1 0)).pp.BackBufferHeight = 0 :=
  ⟨Or.inl rfl, rfl, rfl, rfl, rfl⟩

/-- Claim C1 amended: if `pp.BackBufferWidth` is 0 on entry, then on exit
`pp.BackBufferWidth` and `pp.BackBufferHeight` are the width `right - left` and the height
`bottom - top` of the client rectangle of the target window, converted to `UINT`: equal
to them when they lie in the range of `UINT`, and then non-zero when they are positive.
This holds whether or not the construction succeeds. -/
theorem backBuffer_size_resolved_from_client_rect (host : Host) (parent : Nat)
    (adapter : D3D9Adapter) (cp : D3DDEVICE_CREATION_PARAMETERS) (pp : D3DPRESENT_PARAMETERS)
    (r : RECT) (hw : pp.BackBufferWidth = 0)
    (hr : host.GetClientRect (if pp.hDeviceWindow ≠ 0 then pp.hDeviceWindow else cp.hFocusWindow)
      { left := 0, top := 0, right := 0, bottom := 0 } = r) :
    (D3D9Device.new host parent adapter cp pp).pp.BackBufferWidth = toUINT (r.right - r.left) ∧
    (D3D9Device.new host parent adapter cp pp).pp.BackBufferHeight = toUINT (r.bottom - r.top) ∧
    (0 ≤ r.right - r.left → r.right - r.left < 2 ^ 32 →
      ((D3D9Device.new host parent adapter cp pp).pp.BackBufferWidth : Int) =
        r.right - r.left) ∧
    (0 ≤ r.bottom - r.top → r.bottom - r.top < 2 ^ 32 →
      ((D3D9Device.new host parent adapter cp pp).pp.BackBufferHeight : Int) =
        r.bottom - r.top) ∧
    (0 < r.right - r.left → r.right - r.left < 2 ^ 32 →
      (D3D9Device.new host parent adapter cp pp).pp.BackBufferWidth ≠ 0) ∧
    (0 < r.bottom - r.top → r.bottom - r.top < 2 ^ 32 →
      (D3D9Device.new host parent adapter cp pp).pp.BackBufferHeight ≠ 0) := by
  have hW : (D3D9Device.new host parent adapter cp pp).pp.BackBufferWidth =
      toUINT (r.right - r.left) := by
    rw [new_pp, swapChainSetup_pp, if_pos hw, hr]
  have hH : (D3D9Device.new host parent adapter cp pp).pp.BackBufferHeight =
      toUINT (r.bottom - r.top) := by
    rw [new_pp, swapChainSetup_pp, if_pos hw, hr]
  refine ⟨hW, hH, ?_, ?_, ?_, ?_⟩
  · intro h0 h1
    rw [hW]
    exact toUINT_of_inRange _ h0 h1
  · intro h0 h1
    rw [hH]
    exact toUINT_of_inRange _ h0 h1
  · intro h0 h1 hz
    have := toUINT_of_inRange _ (le_of_lt h0) h1
    rw [← hW, hz] at this
    simp at this
    omega
  · intro h0 h1 hz
    have := toUINT_of_inRange _ (le_of_lt h0) h1
    rw [← hH, hz] at this
    simp at this
    omega

/-- Scenario 3 of the specification as an instance of amended claim C1: a client
rectangle 0, 0, 1280, 720 gives 1280 by 720. -/
theorem backBuffer_size_resolved_from_client_rect_witness :
    (samplePP 0 0 3 1 0).BackBufferWidth = 0 ∧
    (sampleHost { left := 0, top := 0, right := 1280, bottom := 720 } 0 (0, 20)
      (0, 21)).GetClientRect
      (if (samplePP 0 0 3 1 0).hDeviceWindow ≠ 0 then (samplePP 0 0 3 1 0).hDeviceWindow
        else sampleCP.hFocusWindow)
      { left := 0, top := 0, right := 0, bottom := 0 } =
      { left := 0, top := 0, right := 1280, bottom := 720 } ∧
    (D3D9Device.new (sampleHost { left := 0, top := 0, right := 1280, bottom := 720 } 0 (0, 20)
      (0, 21)) 5 (sampleD3D9Adapter (sampleDesc "GPU") []) sampleCP
      (samplePP 0 0 3 1 0)).pp.BackBufferWidth = 1280 ∧
    (D3D9Device.new (sampleHost { left := 0, top := 0, right := 1280, bottom := 720 } 0 (0, 20)
      (0, 21)) 5 (sampleD3D9Adapter (sampleDesc "GPU") []) sampleCP
      (samplePP 0 0 3 1 0)).pp.BackBufferHeight = 720 :=
  have h := backBuffer_size_resolved_from_client_rect
    (sampleHost { left := 0, top := 0, right := 1280, bottom := 720 } 0 (0, 20) (0, 21)) 5
    (sampleD3D9Adapter (sampleDesc "GPU") []) sampleCP (samplePP 0 0 3 1 0)
    { left := 0, top := 0, right := 1280, bottom := 720 } rfl rfl
  ⟨rfl, rfl, h.1, h.2.1⟩

/-- Claim C2: for every requested `pp.BackBufferCount` the constructor writes
`min(requested, 1)` back into `pp.BackBufferCount`, passes exactly one swap-chain descriptor
to `D3D11CreateDeviceAndSwapChain`, whose `BufferCount` is that same value, and so leaves
`pp.BackBufferCount` at most 1. -/
theorem BackBufferCount_clamped_to_one (host : Host) (parent : Nat) (adapter : D3D9Adapter)
    (cp : D3DDEVICE_CREATION_PARAMETERS) (pp : D3DPRESENT_PARAMETERS) :
    (D3D9Device.new host parent adapter cp pp).pp.BackBufferCount = min pp.BackBufferCount 1 ∧
    (swapChainDescs (D3D9Device.new host parent adapter cp pp).calls).map
      (fun d => d.BufferCount) = [(D3D9Device.new host parent adapter cp pp).pp.BackBufferCount] ∧
    (D3D9Device.new host parent adapter cp pp).pp.BackBufferCount ≤ 1 := by
  have h : (D3D9Device.new host parent adapter cp pp).pp.BackBufferCount =
      min pp.BackBufferCount 1 := by
    rw [new_pp, swapChainSetup_pp]
    split <;> rfl
  refine ⟨h, ?_, ?_⟩
  · rw [new_swapChainDescs, h]
    simp [swapChainSetup_BufferCount]
  · rw [h]
    exact Nat.min_le_right _ _

/-- Scenario 4 of the specification as an instance of claim C2: a requested count of 3
becomes 1. -/
theorem BackBufferCount_clamped_to_one_witness :
    (samplePP 640 480 3 1 0).BackBufferCount = 3 ∧
    (D3D9Device.new (sampleHost { left := 0, top := 0, right := 1280, bottom := 720 } 0 (0, 20)
      (0, 21)) 5 (sampleD3D9Adapter (sampleDesc "GPU") []) sampleCP
      (samplePP 640 480 3 1 0)).pp.BackBufferCount = min 3 1 :=
  ⟨rfl, (BackBufferCount_clamped_to_one
    (sampleHost { left := 0, top := 0, right := 1280, bottom := 720 } 0 (0, 20) (0, 21)) 5
    (sampleD3D9Adapter (sampleDesc "GPU") []) sampleCP (samplePP 640 480 3 1 0)).1⟩

/-- Claim C3 fails as stated: with a requested `BackBufferCount` of 0 the device is
constructed and the descriptor passed to the creation call has `BufferCount` 0. -/
theorem swapChain_created_without_back_buffer :
    (samplePP 640 480 0 1 0).BackBufferCount = 0 ∧
    (D3D9Device.new (sampleHost { left := 0, top := 0, right := 1280, bottom := 720 } 0 (0, 20)
      (0, 21)) 5 (sampleD3D9Adapter (sampleDesc "GPU") []) sampleCP
      (samplePP 640 480 0 1 0)).result.toBool = true ∧
    (swapChainDescs (D3D9Device.new
      (sampleHost { left := 0, top := 0, right := 1280, bottom := 720 } 0 (0, 20) (0, 21)) 5
      (sampleD3D9Adapter (sampleDesc "GPU") []) sampleCP (samplePP 640 480 0 1 0)).calls).map
      (fun d => d.BufferCount) = [0] :=
  ⟨rfl, rfl, rfl⟩

/-- Claim C3 amended: for every constructed device the creation call succeeded on the one
swap-chain descriptor passed to it, and the `BufferCount` of that descriptor is
`min(requested, 1)`: 1 when the requested count is not 0, 0 when it is 0; never more
than one back buffer. -/
theorem swapChain_BufferCount_of_constructed (host : Host) (parent : Nat) (adapter : D3D9Adapter)
    (cp : D3DDEVICE_CREATION_PARAMETERS) (pp : D3DPRESENT_PARAMETERS) (dev : D3D9Device)
    (h : (D3D9Device.new host parent adapter cp pp).result = .ok dev) :
    FAILED (host.D3D11CreateDeviceAndSwapChain (D3D9Device.createArgs adapter.m_adapter.handle
      (D3D9Device.swapChainSetup host cp pp).scDesc)).1 = false ∧
    swapChainDescs (D3D9Device.new host parent adapter cp pp).calls =
      [(D3D9Device.swapChainSetup host cp pp).scDesc] ∧
    (D3D9Device.swapChainSetup host cp pp).scDesc.BufferCount =
      (if pp.BackBufferCount = 0 then 0 else 1) ∧
    (D3D9Device.swapChainSetup host cp pp).scDesc.BufferCount ≤ 1 := by
  refine ⟨(new_result_ok host parent adapter cp pp dev h).1, new_swapChainDescs _ _ _ _ _, ?_, ?_⟩
  · rw [swapChainSetup_BufferCount]
    by_cases h0 : pp.BackBufferCount = 0
    · rw [if_pos h0, h0]
      rfl
    · rw [if_neg h0]
      exact Nat.min_eq_right (Nat.pos_of_ne_zero h0)
  · rw [swapChainSetup_BufferCount]
    exact Nat.min_le_right _ _

/-- An instance of amended claim C3: a requested count of 3 creates the swap chain with
one back buffer. -/
theorem swapChain_BufferCount_of_constructed_witness :
    (D3D9Device.new (sampleHost { left := 0, top := 0, right := 1280, bottom := 720 } 0 (0, 20)
      (0, 21)) 5 (sampleD3D9Adapter (sampleDesc "GPU") []) sampleCP
      (samplePP 640 480 3 1 0)).result.toBool = true ∧
    (D3D9Device.swapChainSetup
      (sampleHost { left := 0, top := 0, right := 1280, bottom := 720 } 0 (0, 20) (0, 21))
      sampleCP (samplePP 640 480 3 1 0)).scDesc.BufferCount = 1 :=
  ⟨rfl, (swapChain_BufferCount_of_constructed
    (sampleHost { left := 0, top := 0, right := 1280, bottom := 720 } 0 (0, 20) (0, 21)) 5
    (sampleD3D9Adapter (sampleDesc "GPU") []) sampleCP (samplePP 640 480 3 1 0) _ rfl).2.2.1⟩

/-- Claim C8 at a swap chain whose `GetBuffer` fails with `E_FAIL` and leaves the
back-buffer pointer null: the constructor does not look at the result, goes on to
`CreateRenderTargetView` with the null buffer, and when that call succeeds it completes; a
device is produced whose render target wraps the null texture. -/
theorem device_constructed_after_GetBuffer_failure :
    FAILED ((sampleHost { left := 0, top := 0, right := 1280, bottom := 720 } 0 (E_FAIL, 0)
      (0, 21)).GetBuffer 10 0).1 = true ∧
    (D3D9Device.new (sampleHost { left := 0, top := 0, right := 1280, bottom := 720 } 0
      (E_FAIL, 0) (0, 21)) 5 (sampleD3D9Adapter (sampleDesc "GPU") []) sampleCP
      (samplePP 1280 720 1 1 0)).result.toBool = true ∧
    (D3D9Device.new (sampleHost { left := 0, top := 0, right := 1280, bottom := 720 } 0
      (E_FAIL, 0) (0, 21)) 5 (sampleD3D9Adapter (sampleDesc "GPU") []) sampleCP
      (samplePP 1280 720 1 1 0)).calls =
      [.D3D11CreateDeviceAndSwapChain (D3D9Device.createArgs 1
          (D3D9Device.swapChainSetup
            (sampleHost { left := 0, top := 0, right := 1280, bottom := 720 } 0 (E_FAIL, 0)
              (0, 21)) sampleCP (samplePP 1280 720 1 1 0)).scDesc),
        .GetBuffer 10 0, .CreateRenderTargetView 11 0, .OMSetRenderTargets 12 1 [21] 0] ∧
    (D3D9Device.new (sampleHost { left := 0, top := 0, right := 1280, bottom := 720 } 0
      (E_FAIL, 0) (0, 21)) 5 (sampleD3D9Adapter (sampleDesc "GPU") []) sampleCP
      (samplePP 1280 720 1 1 0)).result.toOption.map (fun d => d.m_renderTarget) =
      some (some { m_texture := 0, m_usage := D3DUSAGE_RENDERTARGET,
                   m_renderTargetView := 21, m_depthStencilView := 0 }) :=
  ⟨rfl, rfl, rfl, rfl⟩

/-- Claim C9: for every constructed device, whatever `pp.EnableAutoDepthStencil` is, the
render-target surface is set, the depth-stencil surface is unset, and the last call of
the construction is the only output-merger binding issued: `OMSetRenderTargets` on the
immediate context with one render-target slot holding the view associated with the
render-target surface (the view `CreateRenderTargetView` returned) and a null depth-stencil
view. -/
theorem render_target_bound_after_construction (host : Host) (parent : Nat)
    (adapter : D3D9Adapter) (cp : D3DDEVICE_CREATION_PARAMETERS) (pp : D3DPRESENT_PARAMETERS)
    (dev : D3D9Device) (h : (D3D9Device.new host parent adapter cp pp).result = .ok dev) :
    dev.m_renderTarget ≠ none ∧
    dev.m_depthStencil = none ∧
    (D3D9Device.new host parent adapter cp pp).calls.getLast? =
      some (.OMSetRenderTargets dev.m_ctx 1
        [GetInterface_ID3D11RenderTargetView dev.m_renderTarget] 0) ∧
    outputMergerBindings (D3D9Device.new host parent adapter cp pp).calls =
      [.OMSetRenderTargets dev.m_ctx 1
        [GetInterface_ID3D11RenderTargetView dev.m_renderTarget] 0] ∧
    GetInterface_ID3D11RenderTargetView dev.m_renderTarget =
      (host.CreateRenderTargetView dev.m_device (host.GetBuffer dev.m_swapChain 0).2).2 ∧
    dev.m_ctx = (host.D3D11CreateDeviceAndSwapChain
      (D3D9Device.createArgs adapter.m_adapter.handle
        (D3D9Device.swapChainSetup host cp pp).scDesc)).2.ctx := by
  obtain ⟨_, _, _, hctx, _, hrt, hds, _, _, hcalls⟩ := new_result_ok host parent adapter cp pp dev h
  have hom : dev.UpdateOMViews = .OMSetRenderTargets dev.m_ctx 1
      [GetInterface_ID3D11RenderTargetView dev.m_renderTarget] 0 := by
    simp [D3D9Device.UpdateOMViews, hds, GetInterface_ID3D11DepthStencilView]
  refine ⟨?_, hds, ?_, ?_, ?_, hctx⟩
  · rw [hrt]
    exact Option.some_ne_none _
  · rw [hcalls, ← hom]
    simp
  · rw [hcalls, ← hom]
    unfold outputMergerBindings
    rw [List.filter_append]
    have h0 := swapChainSetup_calls_no_binding host cp pp
    unfold outputMergerBindings at h0
    rw [h0]
    simp [D3D9Device.UpdateOMViews]
  · rw [hrt]
    rfl

/-- An instance of claim C9 with `EnableAutoDepthStencil` set. -/
theorem render_target_bound_after_construction_witness :
    (samplePP 0 0 3 1 0).EnableAutoDepthStencil ≠ 0 ∧
    (D3D9Device.new (sampleHost { left := 0, top := 0, right := 1280, bottom := 720 } 0 (0, 20)
      (0, 21)) 5 (sampleD3D9Adapter (sampleDesc "GPU") []) sampleCP
      (samplePP 0 0 3 1 0)).result.toBool = true ∧
    (D3D9Device.new (sampleHost { left := 0, top := 0, right := 1280, bottom := 720 } 0 (0, 20)
      (0, 21)) 5 (sampleD3D9Adapter (sampleDesc "GPU") []) sampleCP
      (samplePP 0 0 3 1 0)).calls.getLast? = some (.OMSetRenderTargets 12 1 [21] 0) :=
  ⟨by decide, rfl, (render_target_bound_after_construction
    (sampleHost { left := 0, top := 0, right := 1280, bottom := 720 } 0 (0, 20) (0, 21)) 5
    (sampleD3D9Adapter (sampleDesc "GPU") []) sampleCP (samplePP 0 0 3 1 0) _ rfl).2.2.1⟩

/-- Claim C10: the refresh rate in the one swap-chain descriptor the constructor passes on
is `FullScreen_RefreshRateInHz / 1` when `pp.Windowed` is false and
`pp.FullScreen_RefreshRateInHz` is not 0, and `60 / 1` in every other case; the denominator
is always 1. -/
theorem refresh_rate_of_swap_chain (host : Host) (parent : Nat) (adapter : D3D9Adapter)
    (cp : D3DDEVICE_CREATION_PARAMETERS) (pp : D3DPRESENT_PARAMETERS) :
    (swapChainDescs (D3D9Device.new host parent adapter cp pp).calls).map
      (fun d => d.BufferDesc.RefreshRate) =
      [if pp.Windowed = 0 ∧ pp.FullScreen_RefreshRateInHz ≠ 0 then
        { Numerator := pp.FullScreen_RefreshRateInHz, Denominator := 1 }
      else
        { Numerator := 60, Denominator := 1 }] ∧
    ∀ d ∈ swapChainDescs (D3D9Device.new host parent adapter cp pp).calls,
      d.BufferDesc.RefreshRate.Denominator = 1 := by
  rw [new_swapChainDescs]
  refine ⟨by simp [swapChainSetup_RefreshRate], ?_⟩
  intro d hd
  rw [List.mem_singleton] at hd
  rw [hd, swapChainSetup_RefreshRate]
  split <;> rfl

/-- The local `height` is initialised from `pp.BackBufferWidth`: with a width of 640 and
a height of 0 the window is not consulted and the height stays 0, in the caller's record
and in the mode descriptor. -/
theorem backBuffer_height_zero_kept :
    (D3D9Device.new (sampleHost { left := 0, top := 0, right := 1280, bottom := 720 } 0 (0, 20)
      (0, 21)) 5 (sampleD3D9Adapter (sampleDesc "GPU") []) sampleCP
      (samplePP 640 0 1 1 0)).pp.BackBufferHeight = 0 ∧
    (swapChainDescs (D3D9Device.new
      (sampleHost { left := 0, top := 0, right := 1280, bottom := 720 } 0 (0, 20) (0, 21)) 5
      (sampleD3D9Adapter (sampleDesc "GPU") []) sampleCP (samplePP 640 0 1 1 0)).calls).map
      (fun d => (d.BufferDesc.Width, d.BufferDesc.Height)) = [(640, 0)] :=
  ⟨rfl, rfl⟩

end dxvk
